import Mathlib

/-!
Verification of the pyopenems synchronization bridge and API client.

The definitions below are a shallow embedding of the repository's three
source files:

* `src/openems/utils/bridge.py` — class `ASGIRefBridge`: a bridge letting
  synchronous callers run asyncio coroutines, routing each call either to
  an event loop owned by the bridge or to a `ThreadPoolExecutor`.
* `src/openems/api.py` — class `OpenEMSAPIClient`: caches an authenticated
  websocket handle in `self._server` and classifies `ProtocolError`s.
* `src/openems/exceptions.py` — class `APIError(message, code)`.

Python runtime values and exceptions are modelled by inductive types;
wall-clock time is modelled by natural-number durations, and the thread
pool by explicit state (tasks still running in the background, outcomes of
completed tasks, a shutdown flag).
-/

namespace OpenEMS

/-- A Python value, as far as the claims need: integers, strings, `None`. -/
inductive PyVal where
  | int (n : Int)
  | str (s : String)
  | pynone
  deriving DecidableEq, Repr

/-- `str(v)` / f-string interpolation of a Python value. -/
def PyVal.pyStr : PyVal → String
  | .int n => toString n
  | .str s => s
  | .pynone => "None"

/-- A Python exception, as far as the claims need.  `protocolError` models
`jsonrpc_base.jsonrpc.ProtocolError`, carrying whether its `args` attribute
is a tuple and the sequence of argument values; `apiError` models
`openems.exceptions.APIError(message, code)` (the `code` receives
`e.args[0]`, whatever value that is); `indexError` models the `IndexError`
a too-short tuple lookup raises; `other` stands for any other exception. -/
inductive PyExn where
  | protocolError (argsIsTuple : Bool) (args : List PyVal)
  | apiError (message : String) (code : PyVal)
  | indexError
  | other (tag : String)
  deriving DecidableEq, Repr

/-- An asyncio event loop, as seen by the bridge: only its `is_running()`
state matters to `isinloop`. -/
structure EventLoop where
  isRunning : Bool
  deriving DecidableEq, Repr

/-- `ASGIRefBridge.isinloop`: `asyncio.get_running_loop()` raises
`RuntimeError` when the calling thread has no running loop (modelled by
`none`); otherwise the method returns `True` exactly when the obtained
loop's `is_running()` is true. -/
def isinloop (env : Option EventLoop) : Bool :=
  match env with
  | some loop => if loop.isRunning then true else false
  | none => false

deriving instance DecidableEq for Except

/-- An asynchronous operation handed to `run`: the coroutine function with
its captured arguments.  `duration` is the wall-clock time the operation
takes once driven; `outcome` is the value it returns or the exception it
raises when driven to completion. -/
structure AsyncOp where
  duration : Nat
  outcome : Except PyExn PyVal
  deriving DecidableEq, Repr

/-- State of the bridge's `ThreadPoolExecutor`: the worker count it was
created with, tasks a timed-out caller abandoned but that keep running in
the background, the recorded outcomes of tasks that finished, and whether
`shutdown` has been called. -/
structure Executor where
  maxWorkers : Nat
  inflight : List AsyncOp
  completed : List (Except PyExn PyVal)
  isShutdown : Bool
  deriving DecidableEq, Repr

/-- `ThreadPoolExecutor.shutdown(wait=True)`: waits for every in-flight
task to run to completion (recording their outcomes; nothing is
cancelled), then marks the pool shut down.  It is a total function — the
Python call returns normally and raises nothing. -/
def Executor.shutdown (e : Executor) : Executor :=
  { e with
    inflight := []
    completed := e.completed ++ e.inflight.map AsyncOp.outcome
    isShutdown := true }

/-- The state of one `ASGIRefBridge` instance: its executor, the
`isinparentloop` flag recorded once by `__init__`, and the event loop
`__init__` creates when that flag is false (`self.loop` is never assigned
anywhere else, so `none` models the attribute not existing). -/
structure ASGIRefBridge where
  executor : Executor
  isinparentloop : Bool
  loop : Option EventLoop
  deriving DecidableEq, Repr

/-- `ASGIRefBridge.__init__(max_workers=1)`: creates the executor, records
`self.isinparentloop = self.isinloop()` once, and — only when that check
found no running loop — creates a fresh (not running) event loop via
`asyncio.new_event_loop()` and installs it as `self.loop`. -/
def ASGIRefBridge.init (maxWorkers : Nat) (env : Option EventLoop) : ASGIRefBridge :=
  { executor := { maxWorkers := maxWorkers, inflight := [], completed := [], isShutdown := false }
    isinparentloop := isinloop env
    loop := if isinloop env then none else some (EventLoop.mk false) }

/-- Which of `run`'s two routing paths executed. -/
inductive RunPath where
  | ownedLoop
  | pool
  deriving DecidableEq, Repr

/-- What the caller of `run` observes: the operation's return value, the
exception it raised (re-raised unchanged by `run_until_complete`, by
`asgiref.async_to_sync` and by `Future.result`), or the
`concurrent.futures.TimeoutError` that `Future.result(timeout=...)` raises
when the wait exceeds the timeout. -/
inductive RunOutcome where
  | value (v : PyVal)
  | raised (e : PyExn)
  | timedOut
  deriving DecidableEq, Repr

/-- Lift an operation's outcome to what a blocking wait on it observes. -/
def RunOutcome.ofOutcome : Except PyExn PyVal → RunOutcome
  | .ok v => .value v
  | .error e => .raised e

/-- `concurrent.futures.Future.result(timeout)`: with `timeout=None` the
wait blocks until the task resolves and yields its outcome; with a finite
timeout it yields the outcome when the task resolves in time and otherwise
raises `TimeoutError` — without cancelling the task. -/
def futResult (op : AsyncOp) (timeout : Option Nat) : RunOutcome :=
  match timeout with
  | none => .ofOutcome op.outcome
  | some t => if op.duration ≤ t then .ofOutcome op.outcome else .timedOut

/-- Observable trace of one `run` call: the path taken, what the caller
got, and — on the pool path — the submitted task's eventual fate
(`taskFinal` is its outcome once the worker finishes driving it;
`taskCancelled` records that nothing in `run` cancels it). -/
structure RunTrace where
  pathTaken : RunPath
  callerResult : RunOutcome
  taskFinal : Option (Except PyExn PyVal)
  taskCancelled : Bool
  deriving DecidableEq, Repr

/-- `ASGIRefBridge.run(async_fn, *args, timeout=None, **kwargs)`: branches
on the construction-time `self.isinparentloop` flag.  On the pool path it
submits `lambda: async_to_sync(async_fn)(*args, **kwargs)` to the executor
and blocks on `fut.result(timeout=timeout)`; the worker drives the task to
completion regardless of whether the caller's wait times out, so a
timed-out task stays in flight and its outcome is later discarded.  On the
owned-loop path it calls `self.loop.run_until_complete(async_fn(...))`,
never consulting `timeout`.  Returns the trace and the updated bridge
state. -/
def ASGIRefBridge.run (b : ASGIRefBridge) (op : AsyncOp) (timeout : Option Nat) :
    RunTrace × ASGIRefBridge :=
  if b.isinparentloop then
    let res := futResult op timeout
    let exec :=
      if res = RunOutcome.timedOut then
        { b.executor with inflight := b.executor.inflight ++ [op] }
      else
        { b.executor with completed := b.executor.completed ++ [op.outcome] }
    ({ pathTaken := RunPath.pool
       callerResult := res
       taskFinal := some op.outcome
       taskCancelled := false },
     { b with executor := exec })
  else
    ({ pathTaken := RunPath.ownedLoop
       callerResult := RunOutcome.ofOutcome op.outcome
       taskFinal := none
       taskCancelled := false },
     b)

/-- `ASGIRefBridge.shutdown()`: `self._executor.shutdown(wait=True)`.
Touches nothing but the executor; total (never raises). -/
def ASGIRefBridge.shutdown (b : ASGIRefBridge) : ASGIRefBridge :=
  { b with executor := b.executor.shutdown }

/-- Serialized execution by the single worker thread of a
`ThreadPoolExecutor(max_workers=1)`: the worker pops submitted tasks in
FIFO submission order and drives each to completion before starting the
next.  Given the time the worker becomes free, returns each task's
(start, finish) interval. -/
def workerSchedule (t0 : Nat) : List AsyncOp → List (Nat × Nat)
  | [] => []
  | op :: rest => (t0, t0 + op.duration) :: workerSchedule (t0 + op.duration) rest

/-- An authenticated websocket handle (`jsonrpc_websocket.Server` after
`ws_connect` and `authenticateWithPassword`): whether it has a `connected`
attribute (checked by `hasattr`), what that attribute reports, and an
identity tag distinguishing handles. -/
structure Server where
  hasConnectedAttr : Bool
  connected : Bool
  sid : Nat
  deriving DecidableEq, Repr

/-- The mutable state of an `OpenEMSAPIClient` that `login` touches: the
cached handle `self._server` (initialized to `None`). -/
structure ClientState where
  server : Option Server
  deriving DecidableEq, Repr

/-- What the external world does when `login` attempts a fresh connection:
the handle `Server(self.server_url)` + `ws_connect()` would produce, or the
exception `ws_connect` raises; and the exception
`authenticateWithPassword` raises, if any. -/
structure ConnEnv where
  freshServer : Server
  connectResult : Option PyExn
  authResult : Option PyExn
  deriving DecidableEq, Repr

/-- The `except jsonrpc_base.jsonrpc.ProtocolError` handler repeated in
`api.py` (`login`, `get_edges`, `get_edge_config`, ...): when
`isinstance(e.args, tuple)` it raises
`APIError(message=f'{e.args[0]}: {e.args[1]}', code=e.args[0])` — the
f-string indexes `e.args[0]` and `e.args[1]`, so a tuple with fewer than
two elements makes the handler itself raise `IndexError`; when `e.args` is
not a tuple the bare `raise` re-raises the original `ProtocolError`. -/
def handleProtocolError (argsIsTuple : Bool) (args : List PyVal) : PyExn :=
  if argsIsTuple then
    match args with
    | a :: b :: _ => PyExn.apiError (a.pyStr ++ ": " ++ b.pyStr) a
    | _ => PyExn.indexError
  else
    PyExn.protocolError argsIsTuple args

/-- Is an exception an `APIError`? -/
def isAPIError : PyExn → Bool
  | PyExn.apiError _ _ => true
  | _ => false

/-- The refresh block of `OpenEMSAPIClient.login`: `server =
Server(self.server_url)`, `await server.ws_connect()` (an exception here
propagates unchanged), then `await server.authenticateWithPassword(...)`
under the `ProtocolError` handler; only after both succeed does
`self._server = server` run. -/
def connectAndAuth (st : ClientState) (env : ConnEnv) :
    Except PyExn Server × ClientState :=
  match env.connectResult with
  | some e => (Except.error e, st)
  | none =>
    match env.authResult with
    | some (PyExn.protocolError isTuple args) =>
      (Except.error (handleProtocolError isTuple args), st)
    | some e => (Except.error e, st)
    | none => (Except.ok env.freshServer, { server := some env.freshServer })

/-- `OpenEMSAPIClient.login`: when `self._server is None or not
hasattr(self._server, 'connected') or not self._server.connected`, run the
refresh block; otherwise return the cached handle untouched. -/
def login (st : ClientState) (env : ConnEnv) : Except PyExn Server × ClientState :=
  match st.server with
  | some srv =>
    if srv.hasConnectedAttr && srv.connected then (Except.ok srv, st)
    else connectAndAuth st env
  | none => connectAndAuth st env

/-! ## Theorems about the bridge -/

/-- Claim C1: every call to `run` executes exactly one of the two routing
paths, chosen by the context check recorded once at construction: a bridge
constructed when `isinloop` found no running cooperative context routes
every call through the owned loop's `run_until_complete`, and a bridge
constructed inside a running context submits every call to the worker pool
and blocks on the returned future; the recorded flag equals the
construction-time check, whatever the operation and timeout. -/
theorem run_path_fixed_at_construction (w : Nat) (env : Option EventLoop)
    (op : AsyncOp) (t : Option Nat) :
    (((ASGIRefBridge.init w env).run op t).1.pathTaken
        = if isinloop env then RunPath.pool else RunPath.ownedLoop) ∧
    (ASGIRefBridge.init w env).isinparentloop = isinloop env := by
  cases h : isinloop env <;>
    simp [ASGIRefBridge.init, ASGIRefBridge.run, h]

/-- Claim C2: whenever the caller's wait does not time out, `run` hands
back the operation's outcome unchanged — the returned value is exactly the
operation's result, and a failure is re-raised as the exact original
exception, on both routing paths. -/
theorem run_propagates_outcome_unchanged (b : ASGIRefBridge) (op : AsyncOp)
    (t : Option Nat) (h : (b.run op t).1.callerResult ≠ RunOutcome.timedOut) :
    (b.run op t).1.callerResult = RunOutcome.ofOutcome op.outcome := by
  cases hb : b.isinparentloop
  · simp [ASGIRefBridge.run, hb]
  · cases t with
    | none => simp [ASGIRefBridge.run, futResult, hb]
    | some d =>
      by_cases hd : op.duration ≤ d
      · simp [ASGIRefBridge.run, futResult, hb, hd]
      · exact absurd (by simp [ASGIRefBridge.run, futResult, hb, hd]) h

/-- Claim C2 witness: a bridge built outside any running context returns
the literal 42 from a trivial operation, exactly. -/
theorem run_propagates_outcome_unchanged_witness :
    ((ASGIRefBridge.init 1 none).run (AsyncOp.mk 0 (Except.ok (PyVal.int 42))) none).1.callerResult
      = RunOutcome.ofOutcome (Except.ok (PyVal.int 42)) :=
  run_propagates_outcome_unchanged _ _ _ (by decide)

/-- Claim C3: `run` accepts the timeout on both paths but honors it only
on the pool path.  On the owned-loop path the whole observable behavior of
`run` (trace and post-state) is identical for every timeout value; on the
pool path the wait on the future is bounded by the timeout: the outcome is
delivered when the operation resolves within the bound, and the wait fails
with the timeout condition when it does not. -/
theorem run_timeout_asymmetry (b : ASGIRefBridge) (op : AsyncOp) :
    (b.isinparentloop = false → ∀ t t', b.run op t = b.run op t') ∧
    (b.isinparentloop = true → ∀ d, op.duration ≤ d →
      (b.run op (some d)).1.callerResult = RunOutcome.ofOutcome op.outcome) ∧
    (b.isinparentloop = true → ∀ d, d < op.duration →
      (b.run op (some d)).1.callerResult = RunOutcome.timedOut) := by
  refine ⟨fun hb t t' => ?_, fun hb d hd => ?_, fun hb d hd => ?_⟩
  · simp [ASGIRefBridge.run, hb]
  · simp [ASGIRefBridge.run, futResult, hb, hd]
  · simp [ASGIRefBridge.run, futResult, hb, Nat.not_le.mpr hd]

/-- Claim C3 witness: on a concrete owned-loop bridge two different
timeouts give the same call result, and on a concrete pool bridge a
too-short timeout makes the wait fail with the timeout condition. -/
theorem run_timeout_asymmetry_witness :
    ((ASGIRefBridge.init 1 none).run (AsyncOp.mk 5 (Except.ok (PyVal.int 7))) none
      = (ASGIRefBridge.init 1 none).run (AsyncOp.mk 5 (Except.ok (PyVal.int 7))) (some 1)) ∧
    ((ASGIRefBridge.init 1 (some (EventLoop.mk true))).run
        (AsyncOp.mk 5 (Except.ok (PyVal.int 7))) (some 1)).1.callerResult
      = RunOutcome.timedOut :=
  ⟨(run_timeout_asymmetry (ASGIRefBridge.init 1 none) _).1 rfl none (some 1),
   (run_timeout_asymmetry _ (AsyncOp.mk 5 (Except.ok (PyVal.int 7)))).2.2 rfl 1 (by decide)⟩

/-- Claim C4: on the pool path, an operation whose completion time exceeds
the caller's timeout makes `run` fail with the timeout condition, while
the underlying task is not cancelled: it stays in flight on the worker,
runs to its own completion with its original outcome, and that outcome is
discarded rather than delivered to the caller. -/
theorem pool_timeout_leaves_task_running (b : ASGIRefBridge) (op : AsyncOp)
    (d : Nat) (hb : b.isinparentloop = true) (hd : d < op.duration) :
    ((b.run op (some d)).1.callerResult = RunOutcome.timedOut) ∧
    ((b.run op (some d)).1.taskCancelled = false) ∧
    ((b.run op (some d)).1.taskFinal = some op.outcome) ∧
    (op ∈ (b.run op (some d)).2.executor.inflight) := by
  have hres : futResult op (some d) = RunOutcome.timedOut := by
    simp [futResult, Nat.not_le.mpr hd]
  refine ⟨?_, ?_, ?_, ?_⟩ <;>
    simp [ASGIRefBridge.run, hb, hres]

/-- Claim C4 witness: a concrete pool bridge, an operation taking 5 time
units and a timeout of 1. -/
theorem pool_timeout_leaves_task_running_witness :
    (((ASGIRefBridge.init 1 (some (EventLoop.mk true))).run
        (AsyncOp.mk 5 (Except.ok (PyVal.int 42))) (some 1)).1.callerResult
      = RunOutcome.timedOut) ∧
    (((ASGIRefBridge.init 1 (some (EventLoop.mk true))).run
        (AsyncOp.mk 5 (Except.ok (PyVal.int 42))) (some 1)).1.taskCancelled = false) ∧
    (((ASGIRefBridge.init 1 (some (EventLoop.mk true))).run
        (AsyncOp.mk 5 (Except.ok (PyVal.int 42))) (some 1)).1.taskFinal
      = some (Except.ok (PyVal.int 42))) ∧
    (AsyncOp.mk 5 (Except.ok (PyVal.int 42))
      ∈ ((ASGIRefBridge.init 1 (some (EventLoop.mk true))).run
          (AsyncOp.mk 5 (Except.ok (PyVal.int 42))) (some 1)).2.executor.inflight) :=
  pool_timeout_leaves_task_running _ _ _ rfl (by decide)

/-- Claim C5: the owned scheduler loop is created at most once, exactly at
construction, and only when the construction-time detector found no
running cooperative context; neither `run` nor `shutdown` ever touches the
loop, so a bridge owns zero or one loop for its whole lifetime. -/
theorem owned_loop_created_once_at_init (w : Nat) (env : Option EventLoop)
    (b : ASGIRefBridge) (op : AsyncOp) (t : Option Nat) :
    ((ASGIRefBridge.init w env).loop
        = if isinloop env then none else some (EventLoop.mk false)) ∧
    ((b.run op t).2.loop = b.loop) ∧
    (b.shutdown.loop = b.loop) := by
  refine ⟨rfl, ?_, rfl⟩
  cases hb : b.isinparentloop <;>
    simp [ASGIRefBridge.run, hb]

/-- Helper: every task interval in a single-worker schedule starts no
earlier than the moment the worker became free. -/
theorem workerSchedule_start_le (ts : List AsyncOp) (t0 j : Nat)
    (hj : j < (workerSchedule t0 ts).length) :
    t0 ≤ ((workerSchedule t0 ts).get ⟨j, hj⟩).1 := by
  induction ts generalizing t0 j with
  | nil => exact absurd hj (by simp [workerSchedule])
  | cons op rest ih =>
    cases j with
    | zero => exact Nat.le_refl t0
    | succ j' =>
      have hj' : j' < (workerSchedule (t0 + op.duration) rest).length := by
        simpa [workerSchedule] using hj
      exact Nat.le_trans (Nat.le_add_right t0 op.duration)
        (ih (t0 + op.duration) j' hj')

/-- Claim C6: with the default pool of one worker, tasks submitted through
the pool path are executed strictly in submission order and never overlap:
for any two submissions A (position `i`) then B (position `j`, later), A's
task fully finishes before B's task starts — whatever contexts the
submissions came from, the single worker serializes them. -/
theorem pool_size_one_strict_order (ts : List AsyncOp) (t0 i j : Nat)
    (hij : i < j) (hj : j < (workerSchedule t0 ts).length) :
    ((workerSchedule t0 ts).get ⟨i, Nat.lt_trans hij hj⟩).2
      ≤ ((workerSchedule t0 ts).get ⟨j, hj⟩).1 := by
  induction ts generalizing t0 i j with
  | nil => exact absurd hj (by simp [workerSchedule])
  | cons op rest ih =>
    cases j with
    | zero => exact absurd hij (Nat.not_lt_zero i)
    | succ j' =>
      have hj' : j' < (workerSchedule (t0 + op.duration) rest).length := by
        simpa [workerSchedule] using hj
      cases i with
      | zero => exact workerSchedule_start_le rest (t0 + op.duration) j' hj'
      | succ i' => exact ih (t0 + op.duration) i' j' (Nat.lt_of_succ_lt_succ hij) hj'

/-- Claim C6 witness: two concrete tasks A then B on the single worker —
A finishes (time 3) before B starts (time 3). -/
theorem pool_size_one_strict_order_witness :
    ((workerSchedule 0 [AsyncOp.mk 3 (Except.ok (PyVal.int 1)),
        AsyncOp.mk 4 (Except.ok (PyVal.int 2))]).get ⟨0, by decide⟩).2
      ≤ ((workerSchedule 0 [AsyncOp.mk 3 (Except.ok (PyVal.int 1)),
        AsyncOp.mk 4 (Except.ok (PyVal.int 2))]).get ⟨1, by decide⟩).1 :=
  pool_size_one_strict_order _ 0 0 1 (by decide) (by decide)

/-- Claim C7: `shutdown` is idempotent — a second call is a no-op on the
whole bridge state — and it never raises (it is a total function on
bridge states); each call drains the pool by waiting: afterwards no task
is in flight, every previously in-flight task's outcome has been recorded
as completed (waited for, not cancelled), and the pool is marked shut
down. -/
theorem shutdown_idempotent_and_waits (b : ASGIRefBridge) :
    (b.shutdown.shutdown = b.shutdown) ∧
    (b.shutdown.executor.inflight = []) ∧
    (b.shutdown.executor.completed
      = b.executor.completed ++ b.executor.inflight.map AsyncOp.outcome) ∧
    (b.shutdown.executor.isShutdown = true) := by
  refine ⟨?_, rfl, rfl, rfl⟩
  simp [ASGIRefBridge.shutdown, Executor.shutdown]

/-! ## Theorems about the API client -/

/-- Does the cached handle satisfy the reuse condition of `login`? -/
def cacheUsable : Option Server → Bool
  | none => false
  | some srv => srv.hasConnectedAttr && srv.connected

/-- Claim C8: the client caches exactly one handle, and `login` reuses the
cached handle if and only if it exists, has a `connected` attribute and
reports itself connected — in that case it returns it untouched whatever
the network would do, performing no fresh connection; otherwise it
performs a fresh connect-and-authenticate and, when that succeeds, stores
the new handle in place of the old one. -/
theorem login_reuses_cached_iff_connected (st : ClientState) (env : ConnEnv) :
    (∀ srv, st.server = some srv → srv.hasConnectedAttr = true →
      srv.connected = true → login st env = (Except.ok srv, st)) ∧
    (cacheUsable st.server = false → env.connectResult = none →
      env.authResult = none →
      login st env = (Except.ok env.freshServer, ⟨some env.freshServer⟩)) := by
  obtain ⟨s⟩ := st
  constructor
  · rintro srv rfl h1 h2
    simp [login, h1, h2]
  · intro hu hc ha
    cases s with
    | none => simp [login, connectAndAuth, hc, ha]
    | some srv =>
      have hfalse : (srv.hasConnectedAttr && srv.connected) = false := by
        simpa [cacheUsable] using hu
      simp [login, hfalse, connectAndAuth, hc, ha]

/-- Claim C8 witness: a connected cached handle is reused untouched even
though the environment would hand out a different handle, and an empty
cache triggers a fresh connect-and-authenticate whose handle is stored. -/
theorem login_reuses_cached_iff_connected_witness :
    (login ⟨some (Server.mk true true 7)⟩ (ConnEnv.mk (Server.mk true true 9) none none)
      = (Except.ok (Server.mk true true 7), ⟨some (Server.mk true true 7)⟩)) ∧
    (login ⟨none⟩ (ConnEnv.mk (Server.mk true true 9) none none)
      = (Except.ok (Server.mk true true 9), ⟨some (Server.mk true true 9)⟩)) :=
  ⟨(login_reuses_cached_iff_connected ⟨some (Server.mk true true 7)⟩ _).1
      (Server.mk true true 7) rfl rfl rfl,
   (login_reuses_cached_iff_connected ⟨none⟩ _).2 rfl rfl rfl⟩

/-- Claim C9 counterexample: a `ProtocolError` raised by the remote during
authentication whose `args` tuple has a single element (such as
`ProtocolError('Connection is not opened')`) is not turned into an
`APIError`: the handler's f-string indexes `e.args[1]` and the caller
observes an `IndexError` instead. -/
theorem protocolError_escapes_classification :
    ((login ⟨none⟩ (ConnEnv.mk (Server.mk true true 3) none
        (some (PyExn.protocolError true [PyVal.str "Connection is not opened"])))).1
      = Except.error PyExn.indexError) ∧
    (isAPIError PyExn.indexError = false) :=
  ⟨rfl, rfl⟩

/-- Claim C9 as amended: a `ProtocolError` raised during an RPC call is
classified into `APIError(f'{args[0]}: {args[1]}', args[0])` exactly when
its `args` is a tuple with at least two elements; when the `args` tuple
has fewer than two elements the handler itself fails with an `IndexError`
that reaches the caller instead, and when `args` is not a tuple the
original `ProtocolError` is re-raised unchanged. -/
theorem protocolError_classification_amended (args : List PyVal) (a b : PyVal)
    (rest : List PyVal) :
    (handleProtocolError true (a :: b :: rest)
      = PyExn.apiError (a.pyStr ++ ": " ++ b.pyStr) a) ∧
    (args.length < 2 → handleProtocolError true args = PyExn.indexError) ∧
    (handleProtocolError false args = PyExn.protocolError false args) := by
  refine ⟨rfl, fun hlen => ?_, rfl⟩
  match args, hlen with
  | [], _ => rfl
  | [_], _ => rfl

/-- Claim C9 amended witness: the three branches at concrete inputs — a
two-element tuple becomes an `APIError` with the formatted message and the
first element as code, a one-element tuple becomes an `IndexError`, and
non-tuple args re-raise the original `ProtocolError`. -/
theorem protocolError_classification_amended_witness :
    (handleProtocolError true [PyVal.int 1003, PyVal.str "Authentication failed"]
      = PyExn.apiError "1003: Authentication failed" (PyVal.int 1003)) ∧
    ((PyVal.str "boom" :: []).length < 2 →
      handleProtocolError true [PyVal.str "boom"] = PyExn.indexError) ∧
    (handleProtocolError false [PyVal.str "boom"]
      = PyExn.protocolError false [PyVal.str "boom"]) :=
  protocolError_classification_amended [PyVal.str "boom"] (PyVal.int 1003)
    (PyVal.str "Authentication failed") []

/-- Claim C10: `login` is atomic with respect to the connection cache —
whenever it fails (connect failure, authentication failure, or the
handler's own failure), `self._server` is left exactly as it was before
the call, so a half-initialized handle is never stored. -/
theorem login_failure_preserves_cache (st : ClientState) (env : ConnEnv)
    (e : PyExn) (h : (login st env).1 = Except.error e) :
    (login st env).2 = st := by
  obtain ⟨s⟩ := st
  have hca : ∀ e', (connectAndAuth ⟨s⟩ env).1 = Except.error e' →
      (connectAndAuth ⟨s⟩ env).2 = ⟨s⟩ := by
    intro e'
    cases hc : env.connectResult with
    | some ec => intro _; simp [connectAndAuth, hc]
    | none =>
      cases ha : env.authResult with
      | none => simp [connectAndAuth, hc, ha]
      | some ea => cases ea <;> intro _ <;> simp [connectAndAuth, hc, ha]
  cases s with
  | none => exact hca e h
  | some srv =>
    by_cases hok : (srv.hasConnectedAttr && srv.connected) = true
    · rw [login] at h
      simp [hok] at h
    · have hlog : login ⟨some srv⟩ env = connectAndAuth ⟨some srv⟩ env := by
        simp [login, hok]
      rw [hlog] at h ⊢
      exact hca e h

/-- Claim C10 witness: a failed authentication (here surfacing as the
handler's `IndexError`) leaves the empty cache empty. -/
theorem login_failure_preserves_cache_witness :
    (login ⟨none⟩ (ConnEnv.mk (Server.mk true true 3) none
        (some (PyExn.protocolError true [PyVal.str "Connection is not opened"])))).2
      = ⟨none⟩ :=
  login_failure_preserves_cache _ _ PyExn.indexError rfl

end OpenEMS
